import Mathlib

/-!
Shallow embedding of the workspace/workflow engine of `ect/ui/workspace.py`.

Pure Python functions become Lean functions; the mutable filesystem, the
manager's workspace cache and HTTP transport become explicit state passed in
and out.  Python exceptions become an explicit `PyExn` sum returned through
`Except` (for functions that return a value) or an `Option PyExn` paired with
the post-state (for mutating procedures, whose partial effects before the
raise are kept, exactly as CPython leaves them).

The graph model (`Workflow`, `OpStep`, `NodePort`), the operation registry and
`parse_op_args` live in `ect.core`, which is part of this repository but not
in the sources at hand; those definitions are modelled from the spec and are
marked as such in their doc comments.  Everything else is translated from
`ect/ui/workspace.py` directly.
-/

/-- Exception kinds raised by the embedded code.  `workspaceError` is
`WorkspaceError` (its message may be `None`); `osError` covers the
`IOError`/`OSError` family incl. `URLError`; `valueError` covers `ValueError`
incl. `json.JSONDecodeError`; `windowsError` is the `WindowsError` name used
verbatim at `Workspace.load` line 129; `assertionError` is `AssertionError`. -/
inductive PyExn where
  | workspaceError (msg : Option String)
  | osError (msg : String)
  | valueError (msg : String)
  | windowsError (msg : String)
  | assertionError
deriving Repr, DecidableEq

/-- The message carried by an exception (`str(e)` in Python). -/
def PyExn.msg : PyExn → String
  | .workspaceError m => m.getD ""
  | .osError m => m
  | .valueError m => m
  | .windowsError m => m
  | .assertionError => ""

/-- Association-list lookup, the model of Python `dict` access. -/
def alLookup {α : Type} : List (String × α) → String → Option α
  | [], _ => none
  | (k2, v2) :: t, k => if k2 = k then some v2 else alLookup t k

/-- Association-list update: replace the first binding of the key, or append a
fresh one — the model of `d[k] = v` on a Python `dict`. -/
def alUpdate {α : Type} : List (String × α) → String → α → List (String × α)
  | [], k, v => [(k, v)]
  | (k2, v2) :: t, k, v => if k2 = k then (k, v) :: t else (k2, v2) :: alUpdate t k v

/-- Association-list deletion, the model of `del d[k]`. -/
def alRemove {α : Type} : List (String × α) → String → List (String × α)
  | [], _ => []
  | (k2, v2) :: t, k => if k2 = k then alRemove t k else (k2, v2) :: alRemove t k

/-- Insert a name into a name list if it is not already present (the key set
of a Python `dict` after `d[k] = v`). -/
def listInsert (l : List String) (k : String) : List String :=
  if k ∈ l then l else l ++ [k]

/-- Modelled from the spec: the state of a port of the graph model (spec 3,
"Port").  Exactly one of unset, a literal value, or a reference to another
port; references are kept as (step id, port name) keys resolved through the
graph (spec 9, arena + index representation). -/
inductive PortState where
  | unset
  | value (v : String)
  | sourceRef (step_id : String) (port_name : String)
deriving Repr, DecidableEq

/-- Modelled from the spec: the declared type of an operation parameter, used
by input validation (spec 4.2 step 6).  `anyType` accepts every literal,
`intType` only integer literals. -/
inductive ArgType where
  | anyType
  | intType
deriving Repr, DecidableEq

/-- Whether a literal argument value satisfies a declared parameter type. -/
def validLiteral : ArgType → String → Bool
  | .anyType, _ => true
  | .intType, s => s.toInt?.isSome

/-- `OpMetaInfo.RETURN_OUTPUT_NAME`: the name of the single implicit output. -/
def RETURN_OUTPUT_NAME : String := "return"

/-- Modelled from the spec: an operation descriptor of the external operation
registry (spec 6), also used as the meta-info of a workflow itself: parameter
names with their declared types, output port names (`[RETURN_OUTPUT_NAME]`
for a single implicit output), and the header dictionary. -/
structure OpMetaInfo where
  qualified_name : String
  inputs : List (String × ArgType)
  outputs : List String
  header : List (String × String)
deriving Repr, DecidableEq

/-- Whether the operation declares named outputs rather than the single
implicit `return` output. -/
def OpMetaInfo.has_named_outputs (m : OpMetaInfo) : Bool :=
  decide (m.outputs ≠ [RETURN_OUTPUT_NAME])

/-- Modelled from the spec: one step of the graph (spec 3, "Step"): resource
name doubling as the step id, the bound operation, and one input port per
declared parameter.  The output ports are the `outputs` of `op_meta_info`,
addressed by (step id, port name). -/
structure OpStep where
  id : String
  op_name : String
  input : List (String × PortState)
  op_meta_info : OpMetaInfo
deriving Repr, DecidableEq

/-- Modelled from the spec: `OpStep(op, res_name)` — a candidate step whose
input ports all start unset. -/
def mkOpStep (m : OpMetaInfo) (res_name : String) : OpStep :=
  { id := res_name
    op_name := m.qualified_name
    input := m.inputs.map (fun p => (p.1, PortState.unset))
    op_meta_info := m }

/-- Modelled from the spec: the graph (spec 3, "Graph (Workflow)"): its own
meta-info (header plus the names registered in its output namespace), the
ordered step list, and the graph-level output aliases, each mapping a
resource name to the (step id, port name) it sources from. -/
structure Workflow where
  op_meta_info : OpMetaInfo
  steps : List OpStep
  output : List (String × (String × String))
deriving Repr, DecidableEq

/-- Modelled from the spec: `OP_REGISTRY.get_op(op_name)` — look an operation
up by name in the external registry (spec 6), `none` when absent. -/
def get_op (reg : List OpMetaInfo) (op_name : String) : Option OpMetaInfo :=
  reg.find? (fun m => m.qualified_name == op_name)

/-- Modelled from the spec: `Workflow.add_step(step, can_exist=True)` as
invoked by `set_resource`: replace in place a step with the same resource
name, preserving its position, else append (spec 4.1). -/
def Workflow.add_step (wf : Workflow) (s : OpStep) : Workflow :=
  if wf.steps.any (fun t => t.id == s.id) then
    { wf with steps := wf.steps.map (fun t => if t.id == s.id then s else t) }
  else
    { wf with steps := wf.steps ++ [s] }

/-- Modelled from the spec: `Workflow.resolve_source_refs()` re-binds live
port handles after a replacement (spec 4.1).  References are stored here as
(step id, port name) keys (spec 9, arena + index), so re-binding is the
identity on this representation. -/
def Workflow.resolve_source_refs (wf : Workflow) : Workflow := wf

/-- Modelled from the spec: a value produced by parsing one `key=expression`
argument (spec 4.2 step 5): a direct port reference (the expression names an
existing resource with the single implicit output), a namespace reference (it
names a resource with multiple named outputs, carried with those output
names), or a literal. -/
inductive ParsedValue where
  | portRef (step_id : String) (port_name : String)
  | nsRef (step_id : String) (outs : List String)
  | literal (s : String)
deriving Repr, DecidableEq

/-- Whether a character may appear in a keyword-argument name. -/
def isIdentChar (c : Char) : Bool := c.isAlphanum || c = '_'

/-- Whether a string is a valid keyword-argument name. -/
def isIdent (s : String) : Bool :=
  !s.isEmpty && s.toList.all isIdentChar && !(s.toList.headD 'x').isDigit

/-- Split a raw argument at its first equals sign, `none` when it has none. -/
def splitEq (s : String) : Option (String × String) :=
  match s.toList.findIdx? (fun c => c = '=') with
  | none => none
  | some i => some (⟨s.toList.take i⟩, ⟨s.toList.drop (i + 1)⟩)

/-- Modelled from the spec: `parse_op_args(raw_op_args, namespace)` of
`ect.core.op` (not under the sources at hand).  Each raw argument with an
equals sign is a keyword argument whose name must be a valid identifier
(`ValueError` otherwise); arguments without one are positional.  A keyword
expression is classified against the namespace of existing resources as in
spec 4.2 step 5.  Returns (positional arguments, keyword arguments). -/
def parse_op_args :
    List String → List (String × List String) →
    Except PyExn (List String × List (String × ParsedValue))
  | [], _ => .ok ([], [])
  | a :: rest, ns =>
    match splitEq a with
    | none =>
      match parse_op_args rest ns with
      | .error e => .error e
      | .ok (pos, kw) => .ok (a :: pos, kw)
    | some (k, v) =>
      if !isIdent k then
        .error (.valueError ("invalid keyword argument name: " ++ k))
      else
        let pv : ParsedValue :=
          match alLookup ns v with
          | some outs =>
            if outs = [RETURN_OUTPUT_NAME] then .portRef v RETURN_OUTPUT_NAME
            else .nsRef v outs
          | none => .literal v
        match parse_op_args rest ns with
        | .error e => .error e
        | .ok (pos, kw) => .ok (pos, (k, pv) :: kw)

/-- Modelled from the spec: `OpMetaInfo.validate_input_values(op_kwargs,
except_types)` — check each resolved literal value against the declared
parameter type; values that are graph references are excluded (spec 4.2
step 6).  Keyword names not matching a declared parameter are left for the
later unknown-input check. -/
def validate_input_values
    (m : OpMetaInfo) (kwargs : List (String × ParsedValue)) : Except PyExn Unit :=
  if kwargs.all (fun kv =>
      match kv.2 with
      | .literal s =>
        match alLookup m.inputs kv.1 with
        | some ty => validLiteral ty s
        | none => true
      | _ => true) then
    .ok ()
  else
    .error (.valueError "input validation failed")

/-- The binding loop of `Workspace.set_resource` (source lines 198-212): for
each keyword argument, fail if its name is not an input port of the candidate
step; bind a port reference as the port source, a namespace reference through
its designated `return` output (illegal when absent), and anything else as
the port value. -/
def bind_inputs (op_name : String) :
    OpStep → List (String × ParsedValue) → Except PyExn OpStep
  | step, [] => .ok step
  | step, (input_name, input_value) :: rest =>
    if step.input.all (fun p => p.1 != input_name) then
      .error (.workspaceError (some
        (input_name ++ " is not an input of operation " ++ op_name)))
    else
      match input_value with
      | .portRef sid pn =>
        bind_inputs op_name
          { step with input := alUpdate step.input input_name (.sourceRef sid pn) } rest
      | .nsRef sid outs =>
        if RETURN_OUTPUT_NAME ∈ outs then
          bind_inputs op_name
            { step with
              input := alUpdate step.input input_name
                (.sourceRef sid RETURN_OUTPUT_NAME) } rest
        else
          .error (.workspaceError (some ("illegal value for input " ++ input_name)))
      | .literal s =>
        bind_inputs op_name
          { step with input := alUpdate step.input input_name (.value s) } rest

/-- `Workspace.set_resource(res_name, op_name, op_args, can_exist,
validate_args)` (source lines 160-229).  The workflow returned alongside the
raised exception is the graph as the failing call leaves it; in particular
the candidate step has already been inserted when the named-outputs check of
source lines 222-224 fires, because `add_step` runs at line 216. -/
def Workspace.set_resource (reg : List OpMetaInfo) (wf : Workflow)
    (res_name op_name : String) (op_args : List String)
    (can_exist validate_args : Bool) : Option PyExn × Workflow :=
  if res_name = "" ∨ op_name = "" ∨ op_args = [] then
    (some .assertionError, wf)
  else
    match get_op reg op_name with
    | none => (some (.workspaceError (some ("unknown operation " ++ op_name))), wf)
    | some op =>
      let op_step := mkOpStep op res_name
      let ns := wf.steps.map (fun s => (s.id, s.op_meta_info.outputs))
      let does_exist := ns.any (fun p => p.1 == res_name)
      if !can_exist && does_exist then
        (some (.workspaceError (some ("resource " ++ res_name ++ " already exists"))), wf)
      else
        match parse_op_args op_args ns with
        | .error e => (some (.workspaceError (some e.msg)), wf)
        | .ok (pos, kwargs) =>
          if pos ≠ [] then
            (some (.workspaceError (some "positional arguments are not yet supported")), wf)
          else
            match (if validate_args then validate_input_values op kwargs else .ok ()) with
            | .error e => (some e, wf)
            | .ok _ =>
              match bind_inputs op_name op_step kwargs with
              | .error e => (some e, wf)
              | .ok bound_step =>
                let wf1 := wf.add_step bound_step
                let wf2 := if does_exist then wf1.resolve_source_refs else wf1
                if op.has_named_outputs then
                  (some (.workspaceError (some
                    ("operation " ++ op_name ++
                     " has named outputs which are not (yet) supported"))), wf2)
                else
                  (none,
                   { wf2 with
                     op_meta_info :=
                       { wf2.op_meta_info with
                         outputs := listInsert wf2.op_meta_info.outputs res_name }
                     output :=
                       alUpdate wf2.output res_name (res_name, RETURN_OUTPUT_NAME) })

/-- `WORKSPACE_DATA_DIR_NAME` (source line 39). -/
def WORKSPACE_DATA_DIR_NAME : String := ".ect-workspace"

/-- `WORKSPACE_WORKFLOW_FILE_NAME` (source line 40). -/
def WORKSPACE_WORKFLOW_FILE_NAME : String := "workflow.json"

/-- `os.path.join` on two non-empty components. -/
def joinPath (a b : String) : String := a ++ "/" ++ b

/-- `Workspace.get_workspace_dir(base_dir)` (source lines 93-95). -/
def get_workspace_dir (base_dir : String) : String :=
  joinPath base_dir WORKSPACE_DATA_DIR_NAME

/-- `Workspace.get_workflow_file(base_dir)` (source lines 97-99). -/
def get_workflow_file (base_dir : String) : String :=
  joinPath (get_workspace_dir base_dir) WORKSPACE_WORKFLOW_FILE_NAME

/-- The filesystem state seen by the workspace code: the set of existing
directories and the serialized workflow files, stored as the workflow they
round-trip to (spec 6 round-trip law).  Plain `os` calls that the source does
not guard (permissions, races) are modelled as succeeding. -/
structure FS where
  dirs : List String
  files : List (String × Workflow)
deriving Repr, DecidableEq

/-- `os.path.isdir`. -/
def FS.isDir (fs : FS) (p : String) : Bool := fs.dirs.any (fun d => d == p)

/-- `os.path.isfile`. -/
def FS.isFile (fs : FS) (p : String) : Bool := fs.files.any (fun q => q.1 == p)

/-- `os.mkdir`. -/
def FS.mkdir (fs : FS) (p : String) : FS := { fs with dirs := fs.dirs ++ [p] }

/-- `Workflow.store(file)`: serialize the workflow to the file. -/
def FS.write (fs : FS) (p : String) (wf : Workflow) : FS :=
  { fs with files := alUpdate fs.files p wf }

/-- `Workflow.load(file)`: deserialize, `none` when opening the file raises. -/
def FS.read (fs : FS) (p : String) : Option Workflow := alLookup fs.files p

/-- `os.remove`. -/
def FS.removeFile (fs : FS) (p : String) : FS :=
  { fs with files := alRemove fs.files p }

/-- Whether the first character list starts with the second. -/
def charsStartWith : List Char → List Char → Bool
  | _, [] => true
  | [], _ :: _ => false
  | a :: t1, b :: t2 => a == b && charsStartWith t1 t2

/-- Whether the path starts with the given path piece. -/
def strStarts (s p : String) : Bool := charsStartWith s.data p.data

/-- `shutil.rmtree`: drop the directory and everything below it. -/
def FS.rmtree (fs : FS) (p : String) : FS :=
  { dirs := fs.dirs.filter (fun d => !(d == p) && !(strStarts d (p ++ "/")))
    files := fs.files.filter (fun q => !(strStarts q.1 (p ++ "/"))) }

/-- The `Workspace` object: a base directory paired with a workflow. -/
structure Workspace where
  base_dir : String
  workflow : Workflow
deriving Repr, DecidableEq

/-- `Workspace.new_workflow(header_dict)` (source lines 101-105): a fresh
workflow whose meta-info is `OpMetaInfo("workspace_workflow", header_dict or
\x7b\x7d)` — no steps, no outputs. -/
def new_workflow (header_dict : Option (List (String × String))) : Workflow :=
  { op_meta_info :=
      { qualified_name := "workspace_workflow"
        inputs := []
        outputs := []
        header := header_dict.getD [] }
    steps := []
    output := [] }

/-- `Workspace.create(base_dir, description)` (source lines 107-124): make the
base and data directories as needed; raise `WorkspaceError("workspace exists")`
when the data directory already holds a workflow file; otherwise store a fresh
workflow whose header carries the description (or the empty string). -/
def Workspace.create (fs : FS) (base_dir : String) (description : Option String) :
    Except PyExn (Workspace × FS) :=
  let fs1 := if !fs.isDir base_dir then fs.mkdir base_dir else fs
  let workspace_dir := get_workspace_dir base_dir
  let workflow_file := get_workflow_file base_dir
  if fs1.isDir workspace_dir && fs1.isFile workflow_file then
    .error (.workspaceError (some ("workspace exists: " ++ base_dir)))
  else
    let fs2 := if !fs1.isDir workspace_dir then fs1.mkdir workspace_dir else fs1
    let wf := new_workflow (some [("description", description.getD "")])
    .ok (⟨base_dir, wf⟩, fs2.write workflow_file wf)

/-- `Workspace.load(base_dir)` (source lines 126-135): when the data directory
is missing the source raises `WindowsError` (line 129) — not a
`WorkspaceError`; reading the workflow file re-raises `IOError`/`OSError` as
`WorkspaceError` (lines 134-135), modelled here by the missing-file case. -/
def Workspace.load (fs : FS) (base_dir : String) : Except PyExn Workspace :=
  if !fs.isDir (get_workspace_dir base_dir) then
    .error (.windowsError ("not a valid workspace: " ++ base_dir))
  else
    match fs.read (get_workflow_file base_dir) with
    | none => .error (.workspaceError (some ("file not found: " ++ get_workflow_file base_dir)))
    | some wf => .ok ⟨base_dir, wf⟩

/-- `Workspace.store()` (source lines 137-141). -/
def Workspace.store (fs : FS) (ws : Workspace) : FS :=
  fs.write (get_workflow_file ws.base_dir) ws.workflow

/-- The local manager: the root that relative paths resolve against and the
workspace cache, a dictionary from resolved base directory to the open
in-memory workspace (source lines 267-270). -/
structure FSWorkspaceManager where
  resolve_dir : String
  workspace_cache : List (String × Workspace)
deriving Repr, DecidableEq

/-- The combined mutable state a local-manager call works on. -/
structure MState where
  fs : FS
  mgr : FSWorkspaceManager
deriving Repr, DecidableEq

/-- `os.path.isabs`. -/
def isAbs (p : String) : Bool := strStarts p "/"

/-- `FSWorkspaceManager.resolve_path(dir_path)` (source lines 272-275):
absolute paths are kept, relative ones are joined to the resolve root.
`normpath`/`abspath` are modelled as the identity on the already-normal paths
of this model. -/
def resolve_path (resolve_dir dir_path : String) : String :=
  if dir_path ≠ "" ∧ isAbs dir_path then dir_path
  else joinPath resolve_dir dir_path

/-- `FSWorkspaceManager.get_workspace(base_dir)` (source lines 277-285):
return the cached workspace when one is open for the resolved directory,
otherwise load it and put it in the cache. -/
def FSWorkspaceManager.get_workspace (st : MState) (base_dir : String) :
    Except PyExn Workspace × MState :=
  let base := resolve_path st.mgr.resolve_dir base_dir
  match alLookup st.mgr.workspace_cache base with
  | some ws => (.ok ws, st)
  | none =>
    match Workspace.load st.fs base with
    | .error e => (.error e, st)
    | .ok ws =>
      (.ok ws,
       { st with mgr :=
           { st.mgr with workspace_cache := alUpdate st.mgr.workspace_cache base ws } })

/-- `FSWorkspaceManager.init_workspace(base_dir, description)` (source lines
287-295): raise `WorkspaceError("workspace exists")` as soon as the data
directory exists; otherwise create the workspace and cache it. -/
def FSWorkspaceManager.init_workspace (st : MState) (base_dir : String)
    (description : Option String) : Except PyExn Workspace × MState :=
  let base := resolve_path st.mgr.resolve_dir base_dir
  if st.fs.isDir (get_workspace_dir base) then
    (.error (.workspaceError (some ("workspace exists: " ++ base))), st)
  else
    match Workspace.create st.fs base description with
    | .error e => (.error e, st)
    | .ok (ws, fs1) =>
      (.ok ws,
       { fs := fs1
         mgr := { st.mgr with workspace_cache := alUpdate st.mgr.workspace_cache base ws } })

/-- `FSWorkspaceManager.clean_workspace(base_dir)` (source lines 297-314):
load the old workspace if possible (any failure is swallowed by the bare
except), remove the workflow file, build a fresh workflow keeping the old
header, cache the reset workspace and store it. -/
def FSWorkspaceManager.clean_workspace (st : MState) (base_dir : String) :
    Option PyExn × MState :=
  let base := resolve_path st.mgr.resolve_dir base_dir
  let wsOpt := (Workspace.load st.fs base).toOption
  let workflow_file := get_workflow_file base
  let fs1 := if st.fs.isFile workflow_file then st.fs.removeFile workflow_file else st.fs
  let wf := new_workflow (wsOpt.map (fun ws => ws.workflow.op_meta_info.header))
  let ws : Workspace := ⟨base, wf⟩
  (none,
   { fs := Workspace.store fs1 ws
     mgr := { st.mgr with workspace_cache := alUpdate st.mgr.workspace_cache base ws } })

/-- `FSWorkspaceManager.delete_workspace(base_dir)` (source lines 317-327):
raise when the data directory is missing, otherwise remove the subtree and
drop the cache entry. -/
def FSWorkspaceManager.delete_workspace (st : MState) (base_dir : String) :
    Option PyExn × MState :=
  let base := resolve_path st.mgr.resolve_dir base_dir
  let workspace_dir := get_workspace_dir base
  if !st.fs.isDir workspace_dir then
    (some (.workspaceError (some ("not a workspace: " ++ base))), st)
  else
    (none,
     { fs := st.fs.rmtree workspace_dir
       mgr := { st.mgr with workspace_cache := alRemove st.mgr.workspace_cache base } })

/-- `FSWorkspaceManager.set_workspace_resource(base_dir, res_name, op_name,
op_args)` (source lines 329-332): get the workspace, mutate it with
`can_exist=True` and `validate_args=True`, and store it on success.  The
workspace object is mutated in place, so the cache sees the mutated workflow
even when `set_resource` raises. -/
def FSWorkspaceManager.set_workspace_resource (reg : List OpMetaInfo) (st : MState)
    (base_dir res_name op_name : String) (op_args : List String) :
    Option PyExn × MState :=
  match FSWorkspaceManager.get_workspace st base_dir with
  | (.error e, st1) => (some e, st1)
  | (.ok ws, st1) =>
    let base := resolve_path st1.mgr.resolve_dir base_dir
    let r := Workspace.set_resource reg ws.workflow res_name op_name op_args true true
    let ws1 : Workspace := { ws with workflow := r.2 }
    let st2 : MState :=
      { st1 with mgr :=
          { st1.mgr with workspace_cache := alUpdate st1.mgr.workspace_cache base ws1 } }
    match r.1 with
    | some e => (some e, st2)
    | none => (none, { st2 with fs := Workspace.store st2.fs ws1 })

/-- The error payload of a JSON response envelope (source lines 406-408). -/
structure ErrorDetails where
  message : Option String
  type_name : Option String
deriving Repr, DecidableEq

/-- A parsed JSON response envelope (spec 6): a status, an optional error
payload and an optional content payload. -/
structure JsonEnvelope where
  status : Option String
  error : Option ErrorDetails
  content : Option String
deriving Repr, DecidableEq

/-- What one HTTP round trip of the remote manager produced, the external
input to `_fetch_json`: a transport failure (`urlopen` raising, e.g.
unreachable server or timeout), a body that is not valid JSON, or a parsed
envelope. -/
inductive HttpOutcome where
  | transportFailure (msg : String)
  | malformedBody (msg : String)
  | body (env : JsonEnvelope)
deriving Repr, DecidableEq

/-- `WebAPIWorkspaceManager._fetch_json(url, data, error_type=WorkspaceError)`
(source lines 400-410), for a URL that `urlopen` accepts — the absolute
`http://host:port/...` URLs built by `_url`: transport failures surface as
the `OSError` family (`URLError`), malformed bodies as `ValueError`
(`json.JSONDecodeError`); an envelope whose status is `error` raises
`WorkspaceError` carrying the envelope message, or the type name when there
is no message; any other envelope yields its content.  `fetch_json_url`
below adds the URL validation that `urlopen` performs first. -/
def fetch_json (outcome : HttpOutcome) : Except PyExn (Option String) :=
  match outcome with
  | .transportFailure m => .error (.osError m)
  | .malformedBody m => .error (.valueError m)
  | .body env =>
    if env.status == some "error" then
      let message := env.error.bind (fun d => d.message)
      let type_name := env.error.bind (fun d => d.type_name)
      .error (.workspaceError (message.orElse (fun _ => type_name)))
    else
      .ok env.content

/-- `WebAPIWorkspaceManager.set_workspace_resource(...)` (source lines
440-444) as a function of the transport outcome of its one request: it just
runs `_fetch_json` and discards the content. -/
def WebAPIWorkspaceManager.set_workspace_resource (outcome : HttpOutcome) :
    Option PyExn :=
  match fetch_json outcome with
  | .error e => some e
  | .ok _ => none

/-- `_fetch_json(url, ...)` including the URL validation done by
`urllib.request.urlopen` before any network activity: a URL without a
scheme — such as a bare path — makes the `Request` constructor raise
`ValueError` (unknown url type) at once, so the round trip modelled by
`fetch_json` is reached only for absolute URLs. -/
def fetch_json_url (url : String) (outcome : HttpOutcome) :
    Except PyExn (Option String) :=
  if !strStarts url "http://" then
    .error (.valueError ("unknown url type: " ++ url))
  else
    fetch_json outcome

/-- `WebAPIWorkspaceManager.is_running(timeout)` (source lines 412-420): the
probe calls `_fetch_json` with the hard-coded relative URL `/` of source line
415 — not a URL built by `_url` — and returns true when that call returns or
raises `WorkspaceError`, false on every other exception. -/
def WebAPIWorkspaceManager.is_running (outcome : HttpOutcome) : Bool :=
  match fetch_json_url "/" outcome with
  | .ok _ => true
  | .error (.workspaceError _) => true
  | .error _ => false

/-! Concrete fixtures used by witnesses and counterexamples. -/

/-- A registered operation with one parameter and the single implicit output. -/
def read_op_meta : OpMetaInfo :=
  { qualified_name := "read_op", inputs := [("file", .anyType)],
    outputs := [RETURN_OUTPUT_NAME], header := [] }

/-- A registered operation declaring two named outputs. -/
def split_op_meta : OpMetaInfo :=
  { qualified_name := "split_op", inputs := [("x", .anyType)],
    outputs := ["a", "b"], header := [] }

/-- A registered operation with one integer-typed parameter. -/
def num_op_meta : OpMetaInfo :=
  { qualified_name := "num_op", inputs := [("n", .intType)],
    outputs := [RETURN_OUTPUT_NAME], header := [] }

/-- The registry fixture. -/
def regSimple : List OpMetaInfo := [read_op_meta, split_op_meta, num_op_meta]

/-- A workflow holding one step `r` bound to `read_op`, with its alias. -/
def wfR : Workflow :=
  { op_meta_info :=
      { qualified_name := "workspace_workflow", inputs := [], outputs := ["r"], header := [] }
    steps := [{ id := "r", op_name := "read_op",
                input := [("file", PortState.value "a.nc")],
                op_meta_info := read_op_meta }]
    output := [("r", ("r", RETURN_OUTPUT_NAME))] }

/-- `wfR` after re-setting resource `r` to read `b.nc`. -/
def wfR2 : Workflow :=
  { op_meta_info :=
      { qualified_name := "workspace_workflow", inputs := [], outputs := ["r"], header := [] }
    steps := [{ id := "r", op_name := "read_op",
                input := [("file", PortState.value "b.nc")],
                op_meta_info := read_op_meta }]
    output := [("r", ("r", RETURN_OUTPUT_NAME))] }

/-- A workspace open at `/root/ws1` holding `wfR`. -/
def wsR : Workspace := ⟨"/root/ws1", wfR⟩

/-- A filesystem with the `/root/ws1` workspace persisted. -/
def fsR : FS :=
  { dirs := ["/root", "/root/ws1", "/root/ws1/.ect-workspace"]
    files := [("/root/ws1/.ect-workspace/workflow.json", wfR)] }

/-- A manager state whose cache has `/root/ws1` open. -/
def stR : MState :=
  { fs := fsR
    mgr := { resolve_dir := "/root", workspace_cache := [("/root/ws1", wsR)] } }

/-! Helper lemmas about the dictionary model and the graph operations. -/

/-- Looking a key up right after updating it yields the new value. -/
theorem alLookup_alUpdate_self {α : Type} (l : List (String × α)) (k : String) (v : α) :
    alLookup (alUpdate l k v) k = some v := by
  induction l with
  | nil => simp [alUpdate, alLookup]
  | cons p t ih =>
    by_cases hp : p.1 = k
    · simp [alUpdate, alLookup, hp]
    · simpa [alUpdate, alLookup, hp] using ih

/-- Looking a key up right after deleting it yields nothing. -/
theorem alLookup_alRemove_self {α : Type} (l : List (String × α)) (k : String) :
    alLookup (alRemove l k) k = none := by
  induction l with
  | nil => simp [alRemove, alLookup]
  | cons p t ih =>
    by_cases hp : p.1 = k
    · simpa [alRemove, hp] using ih
    · simpa [alRemove, alLookup, hp] using ih

/-- The keys of an updated dictionary: unchanged when the key was present,
the key appended otherwise. -/
theorem alUpdate_keys {α : Type} (k : String) (v : α) :
    ∀ l : List (String × α),
      (alUpdate l k v).map Prod.fst =
        if k ∈ l.map Prod.fst then l.map Prod.fst else l.map Prod.fst ++ [k] := by
  intro l
  induction l with
  | nil => simp [alUpdate]
  | cons p t ih =>
    by_cases hp : p.1 = k
    · simp [alUpdate, hp]
    · by_cases hk : k ∈ t.map Prod.fst
      · simp [alUpdate, hp, hk, ih, Ne.symm hp]
      · simp [alUpdate, hp, hk, ih, Ne.symm hp]

/-- Updating one key keeps the keys of a dictionary free of duplicates. -/
theorem alUpdate_keys_nodup {α : Type} (l : List (String × α)) (k : String) (v : α)
    (h : (l.map Prod.fst).Nodup) : ((alUpdate l k v).map Prod.fst).Nodup := by
  rw [alUpdate_keys]
  by_cases hk : k ∈ l.map Prod.fst
  · simpa [hk] using h
  · simp [hk, List.nodup_append, h]
/-- The keys of a dictionary after a deletion form a sublist of the old keys. -/
theorem alRemove_keys_sublist {α : Type} (l : List (String × α)) (k : String) :
    ((alRemove l k).map Prod.fst).Sublist (l.map Prod.fst) := by
  induction l with
  | nil => simp [alRemove]
  | cons p t ih =>
    by_cases hp : p.1 = k
    · simp only [alRemove, hp, if_pos]
      exact ih.trans (List.sublist_cons_self _ _)
    · simpa [alRemove, hp] using ih.cons₂ p.1

/-- Deleting a key keeps the keys of a dictionary free of duplicates. -/
theorem alRemove_keys_nodup {α : Type} (l : List (String × α)) (k : String)
    (h : (l.map Prod.fst).Nodup) : ((alRemove l k).map Prod.fst).Nodup :=
  (alRemove_keys_sublist l k).nodup h

/-- Adding or replacing a step never touches the graph-level output aliases. -/
theorem add_step_output (wf : Workflow) (s : OpStep) :
    (wf.add_step s).output = wf.output := by
  unfold Workflow.add_step; split <;> rfl

/-- Adding or replacing a step never touches the workflow meta-info. -/
theorem add_step_op_meta_info (wf : Workflow) (s : OpStep) :
    (wf.add_step s).op_meta_info = wf.op_meta_info := by
  unfold Workflow.add_step; split <;> rfl

/-- Replacing an already-present step keeps the step id list unchanged. -/
theorem add_step_ids_of_exists (wf : Workflow) (s : OpStep)
    (h : wf.steps.any (fun t => t.id == s.id) = true) :
    (wf.add_step s).steps.map (fun t => t.id) = wf.steps.map (fun t => t.id) := by
  unfold Workflow.add_step
  rw [if_pos h]
  simp only [List.map_map]
  apply List.map_congr_left
  intro t _
  by_cases ht : t.id = s.id
  · simp [Function.comp, ht]
  · simp [Function.comp, ht]

/-- Binding inputs leaves the candidate step's resource name unchanged. -/
theorem bind_inputs_id (op_name : String) :
    ∀ (kw : List (String × ParsedValue)) (st st2 : OpStep),
      bind_inputs op_name st kw = .ok st2 → st2.id = st.id := by
  intro kw
  induction kw with
  | nil => intro st st2 h; simp [bind_inputs] at h; rw [h]
  | cons p rest ih =>
    intro st st2 h
    simp only [bind_inputs] at h
    split at h
    · exact absurd h (by simp)
    · split at h
      · have hh := ih _ _ h
        simpa using hh
      · split at h
        · have hh := ih _ _ h
          simpa using hh
        · exact absurd h (by simp)
      · have hh := ih _ _ h
        simpa using hh

/-! Claim theorems. -/

/-- C8 (code bug): the liveness check returns false for every transport
outcome — even a parsed response envelope, which per the claim must count as
running — because the probe of source line 415 hands the literal relative URL
`/` to `urlopen`, which rejects it with `ValueError` before any round trip,
and the bare except turns that into false.  The server is never reached. -/
theorem is_running_always_false (outcome : HttpOutcome) (env : JsonEnvelope) :
    WebAPIWorkspaceManager.is_running outcome = false ∧
    WebAPIWorkspaceManager.is_running (.body env) = false ∧
    fetch_json_url "/" outcome = .error (.valueError "unknown url type: /") :=
  ⟨rfl, rfl, rfl⟩

/-- C4: every JSON envelope with status `error` makes the remote manager's
`set_workspace_resource` fail with `WorkspaceError` carrying the envelope's
message, or its type name when there is no message — never with a
transport-level error kind. -/
theorem set_workspace_resource_error_envelope (env : JsonEnvelope)
    (h : env.status = some "error") :
    WebAPIWorkspaceManager.set_workspace_resource (.body env) =
      some (.workspaceError
        ((env.error.bind (fun d => d.message)).orElse
          (fun _ => env.error.bind (fun d => d.type_name)))) := by
  unfold WebAPIWorkspaceManager.set_workspace_resource fetch_json
  simp [h]

/-- C4 witness: the envelope with status `error` and message `boom` makes the
remote `set_workspace_resource` fail with `WorkspaceError` whose message is
`boom`. -/
theorem set_workspace_resource_error_envelope_witness :
    WebAPIWorkspaceManager.set_workspace_resource
        (.body { status := some "error"
                 error := some { message := some "boom", type_name := none }
                 content := none }) =
      some (.workspaceError (some "boom")) :=
  set_workspace_resource_error_envelope
    { status := some "error"
      error := some { message := some "boom", type_name := none }
      content := none } rfl

/-- C2 (code bug): on a base directory whose workspace data directory does not
exist, `Workspace.load` raises `WindowsError` (source line 129) — not a
member of the `WorkspaceError` family — while an I/O failure when reading the
persisted graph is indeed re-raised as `WorkspaceError` (source lines
134-135). -/
theorem load_missing_dir_raises_windows_error :
    Workspace.load { dirs := [], files := [] } "ws" =
      .error (.windowsError "not a valid workspace: ws") ∧
    Workspace.load { dirs := [get_workspace_dir "ws"], files := [] } "ws" =
      .error (.workspaceError (some ("file not found: " ++ get_workflow_file "ws"))) := by
  constructor <;> rfl

/-- C10: a call to `Workspace.set_resource` with an empty resource name, an
empty operation name or an empty argument list fails on the entry assertions
(source lines 161-163), leaving the graph untouched and independently of
whatever the operation registry holds — so it is never consulted. -/
theorem set_resource_entry_assertions (reg reg2 : List OpMetaInfo) (wf : Workflow)
    (res_name op_name : String) (op_args : List String) (ce va : Bool)
    (h : res_name = "" ∨ op_name = "" ∨ op_args = []) :
    Workspace.set_resource reg wf res_name op_name op_args ce va =
      (some .assertionError, wf) ∧
    Workspace.set_resource reg wf res_name op_name op_args ce va =
      Workspace.set_resource reg2 wf res_name op_name op_args ce va := by
  constructor
  · unfold Workspace.set_resource
    rw [if_pos h]
  · unfold Workspace.set_resource
    rw [if_pos h, if_pos h]

/-- C10 witness: a zero-argument call on a known operation fails with
`AssertionError` and an empty registry behaves identically. -/
theorem set_resource_entry_assertions_witness :
    Workspace.set_resource regSimple (new_workflow none) "x" "read_op" [] true true =
      (some .assertionError, new_workflow none) ∧
    Workspace.set_resource regSimple (new_workflow none) "x" "read_op" [] true true =
      Workspace.set_resource [] (new_workflow none) "x" "read_op" [] true true :=
  set_resource_entry_assertions regSimple [] (new_workflow none) "x" "read_op" []
    true true (Or.inr (Or.inr rfl))

/-- C1 counterexample: a failing `set_resource` call that does not leave the
graph unchanged.  Binding `split_op`, which has two named outputs, raises at
source lines 222-224 — but `add_step` has already run at line 216, so the
candidate step is in the graph after the failed call. -/
theorem set_resource_named_outputs_mutates :
    ((Workspace.set_resource regSimple (new_workflow none) "r" "split_op"
        ["x=1"] false false).1).isSome = true ∧
    (Workspace.set_resource regSimple (new_workflow none) "r" "split_op"
        ["x=1"] false false).2 ≠ new_workflow none := by
  constructor
  · rfl
  · decide

/-- `any` over a mapped list tests the composed predicate. -/
theorem any_map_pair {α β : Type} (l : List α) (f : α → β) (p : β → Bool) :
    (l.map f).any p = l.any (fun a => p (f a)) := by
  induction l with
  | nil => rfl
  | cons a t ih => simp [ih]

/-- C3: when the resource name is already bound to a step, a `set_resource`
call that passes the entry assertions and names a registered operation, with
replacement disallowed, fails with the duplicate-resource error and returns
the graph exactly as it was — same steps, same aliases, same meta-info. -/
theorem set_resource_duplicate_leaves_graph_unchanged
    (reg : List OpMetaInfo) (wf : Workflow) (res_name op_name : String)
    (op_args : List String) (va : Bool) (m : OpMetaInfo)
    (h1 : res_name ≠ "") (h2 : op_name ≠ "") (h3 : op_args ≠ [])
    (h4 : get_op reg op_name = some m)
    (h5 : wf.steps.any (fun s => s.id == res_name) = true) :
    Workspace.set_resource reg wf res_name op_name op_args false va =
      (some (.workspaceError (some ("resource " ++ res_name ++ " already exists"))), wf) := by
  have hc : ¬ (res_name = "" ∨ op_name = "" ∨ op_args = []) := by
    push_neg
    exact ⟨h1, h2, h3⟩
  have hex : ((wf.steps.map (fun s => (s.id, s.op_meta_info.outputs))).any
      (fun p => p.1 == res_name)) = true := by
    rw [any_map_pair]
    simpa using h5
  simp only [Workspace.set_resource, if_neg hc, h4, hex, Bool.not_false,
    Bool.true_and, if_true]

/-- C3 witness: re-setting the existing resource `r` with replacement
disallowed fails with the duplicate error and leaves the one-step graph as it
was. -/
theorem set_resource_duplicate_leaves_graph_unchanged_witness :
    Workspace.set_resource regSimple wfR "r" "read_op" ["file=b.nc"] false true =
      (some (.workspaceError (some "resource r already exists")), wfR) :=
  set_resource_duplicate_leaves_graph_unchanged regSimple wfR "r" "read_op"
    ["file=b.nc"] true read_op_meta (by decide) (by decide) (by decide) rfl rfl

/-- C1 (amended): a failing `set_resource` call never registers a graph-level
output alias and never touches the workflow meta-info; and the step list can
only have changed when the failure is the named-outputs rejection of source
lines 222-224, in which case the graph holds exactly the candidate step
inserted by `add_step` — failures at every earlier stage leave the graph
fully unchanged. -/
theorem set_resource_atomic_amended
    (reg : List OpMetaInfo) (wf : Workflow) (res_name op_name : String)
    (op_args : List String) (ce va : Bool) (e : PyExn) (wf2 : Workflow)
    (h : Workspace.set_resource reg wf res_name op_name op_args ce va = (some e, wf2)) :
    wf2.output = wf.output ∧ wf2.op_meta_info = wf.op_meta_info ∧
    (wf2 ≠ wf →
      ∃ m, get_op reg op_name = some m ∧ m.has_named_outputs = true ∧
        ∃ s, s.id = res_name ∧ wf2 = wf.add_step s) := by
  simp only [Workspace.set_resource, Workflow.resolve_source_refs, ite_self] at h
  split at h
  · simp only [Prod.mk.injEq] at h
    obtain ⟨-, hw⟩ := h
    subst hw
    exact ⟨rfl, rfl, fun hc => absurd rfl hc⟩
  · split at h
    · simp only [Prod.mk.injEq] at h
      obtain ⟨-, hw⟩ := h
      subst hw
      exact ⟨rfl, rfl, fun hc => absurd rfl hc⟩
    · rename_i m heq_op
      split at h
      · simp only [Prod.mk.injEq] at h
        obtain ⟨-, hw⟩ := h
        subst hw
        exact ⟨rfl, rfl, fun hc => absurd rfl hc⟩
      · split at h
        · simp only [Prod.mk.injEq] at h
          obtain ⟨-, hw⟩ := h
          subst hw
          exact ⟨rfl, rfl, fun hc => absurd rfl hc⟩
        · split at h
          · simp only [Prod.mk.injEq] at h
            obtain ⟨-, hw⟩ := h
            subst hw
            exact ⟨rfl, rfl, fun hc => absurd rfl hc⟩
          · split at h
            · simp only [Prod.mk.injEq] at h
              obtain ⟨-, hw⟩ := h
              subst hw
              exact ⟨rfl, rfl, fun hc => absurd rfl hc⟩
            · split at h
              · simp only [Prod.mk.injEq] at h
                obtain ⟨-, hw⟩ := h
                subst hw
                exact ⟨rfl, rfl, fun hc => absurd rfl hc⟩
              · rename_i bound heq_bind
                split at h
                · rename_i hno
                  simp only [Prod.mk.injEq] at h
                  obtain ⟨-, hw⟩ := h
                  subst hw
                  refine ⟨add_step_output wf bound, add_step_op_meta_info wf bound,
                    fun _ => ⟨m, heq_op, hno, bound, ?_, rfl⟩⟩
                  have hid := bind_inputs_id op_name _ _ _ heq_bind
                  simpa [mkOpStep] using hid
                · simp at h

/-- C1 amended witness: the unknown-operation failure leaves the graph
unchanged — aliases, meta-info and (vacuously) the step list. -/
theorem set_resource_atomic_amended_witness :
    (new_workflow none).output = (new_workflow none).output ∧
    (new_workflow none).op_meta_info = (new_workflow none).op_meta_info ∧
    (new_workflow none ≠ new_workflow none →
      ∃ m, get_op regSimple "nope" = some m ∧ m.has_named_outputs = true ∧
        ∃ s, s.id = "r" ∧ new_workflow none = (new_workflow none).add_step s) :=
  set_resource_atomic_amended regSimple (new_workflow none) "r" "nope" ["x=1"]
    false false (.workspaceError (some "unknown operation nope")) (new_workflow none) rfl

/-- Reading a file right after writing it yields the written workflow. -/
theorem FS.read_write_self (fs : FS) (p : String) (wf : Workflow) :
    (fs.write p wf).read p = some wf :=
  alLookup_alUpdate_self fs.files p wf

/-- A successful `set_resource` on an already-bound name replaces the step in
place: the step id list is unchanged. -/
theorem set_resource_ids_of_exists
    (reg : List OpMetaInfo) (wf : Workflow) (res_name op_name : String)
    (op_args : List String) (ce va : Bool) (wf1 : Workflow)
    (h : Workspace.set_resource reg wf res_name op_name op_args ce va = (none, wf1))
    (hex : wf.steps.any (fun s => s.id == res_name) = true) :
    wf1.steps.map (fun s => s.id) = wf.steps.map (fun s => s.id) := by
  simp only [Workspace.set_resource, Workflow.resolve_source_refs, ite_self] at h
  split at h
  · simp at h
  · split at h
    · simp at h
    · rename_i m heq_op
      split at h
      · simp at h
      · split at h
        · simp at h
        · split at h
          · simp at h
          · split at h
            · simp at h
            · split at h
              · simp at h
              · rename_i bound heq_bind
                split at h
                · simp at h
                · simp only [Prod.mk.injEq] at h
                  obtain ⟨-, hw⟩ := h
                  have hbid : bound.id = res_name := by
                    have hid := bind_inputs_id op_name _ _ _ heq_bind
                    simpa [mkOpStep] using hid
                  have hex2 : wf.steps.any (fun t => t.id == bound.id) = true := by
                    rw [hbid]; exact hex
                  have := add_step_ids_of_exists wf bound hex2
                  rw [← hw]
                  simpa using this

/-- C9: when the local manager resolves a workspace whose graph already binds
the resource name, `set_workspace_resource` forwards to the workspace
mutation with replacement allowed and validation enabled (for every argument
list, its outcome is that of `set_resource` with `can_exist` and
`validate_args` both true); on success no error is raised, the updated graph
is immediately persisted to the workspace's workflow file, and the step was
replaced in place rather than appended. -/
theorem fsm_set_workspace_resource_replaces
    (reg : List OpMetaInfo) (st : MState) (base_dir res_name op_name : String)
    (op_args : List String) (ws : Workspace) (st1 : MState) (wf1 : Workflow)
    (h1 : FSWorkspaceManager.get_workspace st base_dir = (.ok ws, st1))
    (h2 : ws.workflow.steps.any (fun s => s.id == res_name) = true)
    (h3 : Workspace.set_resource reg ws.workflow res_name op_name op_args true true =
      (none, wf1)) :
    (∀ args2 : List String,
      (FSWorkspaceManager.set_workspace_resource reg st base_dir res_name op_name args2).1 =
        (Workspace.set_resource reg ws.workflow res_name op_name args2 true true).1) ∧
    (FSWorkspaceManager.set_workspace_resource reg st base_dir res_name op_name op_args).1 =
      none ∧
    ((FSWorkspaceManager.set_workspace_resource reg st base_dir res_name op_name op_args).2).fs.read
        (get_workflow_file ws.base_dir) = some wf1 ∧
    wf1.steps.map (fun s => s.id) = ws.workflow.steps.map (fun s => s.id) := by
  refine ⟨?_, ?_, ?_, set_resource_ids_of_exists _ _ _ _ _ _ _ _ h3 h2⟩
  · intro args2
    simp only [FSWorkspaceManager.set_workspace_resource, h1]
    cases hr : (Workspace.set_resource reg ws.workflow res_name op_name args2 true true).1 <;>
      simp [hr]
  · simp only [FSWorkspaceManager.set_workspace_resource, h1, h3]
  · simp only [FSWorkspaceManager.set_workspace_resource, h1, h3]
    simp [Workspace.store, FS.read_write_self]

/-- C9 witness: re-setting the open resource `r` to read `b.nc` succeeds,
stores the replaced one-step graph and keeps the step id list. -/
theorem fsm_set_workspace_resource_replaces_witness :
    (∀ args2 : List String,
      (FSWorkspaceManager.set_workspace_resource regSimple stR "/root/ws1" "r" "read_op" args2).1 =
        (Workspace.set_resource regSimple wfR "r" "read_op" args2 true true).1) ∧
    (FSWorkspaceManager.set_workspace_resource regSimple stR "/root/ws1" "r" "read_op"
        ["file=b.nc"]).1 = none ∧
    ((FSWorkspaceManager.set_workspace_resource regSimple stR "/root/ws1" "r" "read_op"
        ["file=b.nc"]).2).fs.read (get_workflow_file "/root/ws1") = some wfR2 ∧
    wfR2.steps.map (fun s => s.id) = wfR.steps.map (fun s => s.id) :=
  fsm_set_workspace_resource_replaces regSimple stR "/root/ws1" "r" "read_op"
    ["file=b.nc"] wsR stR wfR2 rfl rfl rfl

/-- C6: cleaning a workspace whose persisted graph loads replaces the graph
with one holding no steps, no graph-level outputs and no registered output
names, while the header metadata is exactly the old graph's header, and the
reset graph is persisted at the workspace's workflow file. -/
theorem clean_workspace_resets_and_preserves_header
    (st : MState) (bd : String) (ws : Workspace)
    (h : Workspace.load st.fs (resolve_path st.mgr.resolve_dir bd) = .ok ws) :
    (FSWorkspaceManager.clean_workspace st bd).1 = none ∧
    ((FSWorkspaceManager.clean_workspace st bd).2).fs.read
        (get_workflow_file (resolve_path st.mgr.resolve_dir bd)) =
      some (new_workflow (some ws.workflow.op_meta_info.header)) ∧
    (new_workflow (some ws.workflow.op_meta_info.header)).steps = [] ∧
    (new_workflow (some ws.workflow.op_meta_info.header)).output = [] ∧
    (new_workflow (some ws.workflow.op_meta_info.header)).op_meta_info.outputs = [] ∧
    (new_workflow (some ws.workflow.op_meta_info.header)).op_meta_info.header =
      ws.workflow.op_meta_info.header := by
  refine ⟨rfl, ?_, rfl, rfl, rfl, rfl⟩
  simp only [FSWorkspaceManager.clean_workspace, h, Except.toOption, Option.map,
    Workspace.store]
  exact FS.read_write_self _ _ _

/-- C6 witness: cleaning `/root/ws1` persists an empty graph that keeps the
old header. -/
theorem clean_workspace_resets_and_preserves_header_witness :
    (FSWorkspaceManager.clean_workspace stR "/root/ws1").1 = none ∧
    ((FSWorkspaceManager.clean_workspace stR "/root/ws1").2).fs.read
        (get_workflow_file "/root/ws1") =
      some (new_workflow (some wfR.op_meta_info.header)) ∧
    (new_workflow (some wfR.op_meta_info.header)).steps = [] ∧
    (new_workflow (some wfR.op_meta_info.header)).output = [] ∧
    (new_workflow (some wfR.op_meta_info.header)).op_meta_info.outputs = [] ∧
    (new_workflow (some wfR.op_meta_info.header)).op_meta_info.header =
      wfR.op_meta_info.header :=
  clean_workspace_resets_and_preserves_header stR "/root/ws1" wsR rfl

/-- A filesystem where the workspace data directory of `/r/b` exists but holds
no workflow file. -/
def fsEmptyWs : FS := { dirs := ["/r", "/r/b", "/r/b/.ect-workspace"], files := [] }

/-- A manager state over `fsEmptyWs` with an empty cache. -/
def stEmptyWs : MState :=
  { fs := fsEmptyWs, mgr := { resolve_dir := "/r", workspace_cache := [] } }

/-- C5 counterexample: `init_workspace` raises the workspace-exists error on a
base directory whose data directory exists but holds no serialized graph —
while `Workspace.create` on the same state succeeds — so the exists-failure is
not equivalent to a serialized graph being present for the local manager. -/
theorem init_workspace_exists_error_without_graph :
    (FSWorkspaceManager.init_workspace stEmptyWs "b" none).1 =
      .error (.workspaceError (some "workspace exists: /r/b")) ∧
    fsEmptyWs.isFile (get_workflow_file "/r/b") = false ∧
    (Workspace.create fsEmptyWs "/r/b" none).isOk = true :=
  ⟨rfl, rfl, rfl⟩

/-- Joining a non-empty piece onto a path never yields the path itself. -/
theorem joinPath_ne_left (a b : String) : joinPath a b ≠ a := by
  intro h
  have hl := congrArg String.length h
  have h1 : String.length "/" = 1 := rfl
  simp only [joinPath, String.length_append, h1] at hl
  omega

/-- The workspace data directory of a base directory is a different path. -/
theorem get_workspace_dir_ne (base : String) : get_workspace_dir base ≠ base :=
  joinPath_ne_left base WORKSPACE_DATA_DIR_NAME

/-- `mkdir` leaves the files untouched. -/
theorem FS.isFile_mkdir (fs : FS) (q p : String) :
    (fs.mkdir q).isFile p = fs.isFile p := rfl

/-- After `mkdir`, a directory exists iff it existed or is the one made. -/
theorem FS.isDir_mkdir (fs : FS) (q p : String) :
    (fs.mkdir q).isDir p = (fs.isDir p || q == p) := by
  simp [FS.isDir, FS.mkdir, List.any_append]

/-- `write` leaves the directories untouched. -/
theorem FS.isDir_write (fs : FS) (p2 : String) (wf : Workflow) (p : String) :
    (fs.write p2 wf).isDir p = fs.isDir p := rfl

/-- When the workspace data directory does not exist, `Workspace.create`
succeeds, makes the data directory and stores a fresh graph carrying the
description. -/
theorem create_succeeds_of_no_dir (fs : FS) (base : String) (d : Option String)
    (hd : fs.isDir (get_workspace_dir base) = false) :
    ∃ ws fs2, Workspace.create fs base d = .ok (ws, fs2) ∧
      ws.base_dir = base ∧
      ws.workflow = new_workflow (some [("description", d.getD "")]) ∧
      fs2.read (get_workflow_file base) = some ws.workflow ∧
      fs2.isDir (get_workspace_dir base) = true := by
  have hb : ((if !fs.isDir base then fs.mkdir base else fs).isDir
      (get_workspace_dir base)) = false := by
    split
    · rw [FS.isDir_mkdir, hd]
      simp [beq_eq_false_iff_ne, Ne.symm (get_workspace_dir_ne base)]
    · exact hd
  simp only [Workspace.create, hb, Bool.false_and, Bool.not_false, if_true, if_false,
    Bool.false_eq_true]
  refine ⟨_, _, rfl, rfl, rfl, FS.read_write_self _ _ _, ?_⟩
  rw [FS.isDir_write, FS.isDir_mkdir]
  simp

/-- C5 (amended): `Workspace.create` fails with the workspace-exists error
precisely when the data directory exists and already holds the serialized
graph file, and otherwise succeeds, allocating storage and writing a fresh
empty graph whose header carries the description; the local manager's
`init_workspace`, however, fails with that error whenever the resolved data
directory exists — even with no serialized graph inside — and succeeds
exactly when the data directory is absent, creating, caching and persisting
the fresh workspace. -/
theorem create_init_workspace_exists_amended
    (fs : FS) (st : MState) (base bd : String) (d : Option String) :
    (fs.isDir (get_workspace_dir base) = true → fs.isFile (get_workflow_file base) = true →
      Workspace.create fs base d =
        .error (.workspaceError (some ("workspace exists: " ++ base)))) ∧
    (fs.isFile (get_workflow_file base) = false →
      (Workspace.create fs base d).isOk = true) ∧
    (fs.isDir (get_workspace_dir base) = false →
      ∃ ws fs2, Workspace.create fs base d = .ok (ws, fs2) ∧
        ws.base_dir = base ∧
        ws.workflow = new_workflow (some [("description", d.getD "")]) ∧
        fs2.read (get_workflow_file base) = some ws.workflow ∧
        fs2.isDir (get_workspace_dir base) = true) ∧
    (st.fs.isDir (get_workspace_dir (resolve_path st.mgr.resolve_dir bd)) = true →
      (FSWorkspaceManager.init_workspace st bd d).1 =
        .error (.workspaceError
          (some ("workspace exists: " ++ resolve_path st.mgr.resolve_dir bd)))) ∧
    (st.fs.isDir (get_workspace_dir (resolve_path st.mgr.resolve_dir bd)) = false →
      ∃ ws st2, FSWorkspaceManager.init_workspace st bd d = (.ok ws, st2) ∧
        alLookup st2.mgr.workspace_cache (resolve_path st.mgr.resolve_dir bd) = some ws ∧
        st2.fs.read (get_workflow_file (resolve_path st.mgr.resolve_dir bd)) =
          some ws.workflow ∧
        ws.workflow = new_workflow (some [("description", d.getD "")])) := by
  refine ⟨?_, ?_, ?_, ?_, ?_⟩
  · intro hd hf
    have h1 : ((if !fs.isDir base then fs.mkdir base else fs).isDir
        (get_workspace_dir base)) = true := by
      split
      · rw [FS.isDir_mkdir, hd]; rfl
      · exact hd
    have h2 : ((if !fs.isDir base then fs.mkdir base else fs).isFile
        (get_workflow_file base)) = true := by
      split
      · rw [FS.isFile_mkdir]; exact hf
      · exact hf
    simp only [Workspace.create, h1, h2, Bool.and_self, if_true]
  · intro hf
    have h2 : ((if !fs.isDir base then fs.mkdir base else fs).isFile
        (get_workflow_file base)) = false := by
      split
      · rw [FS.isFile_mkdir]; exact hf
      · exact hf
    simp only [Workspace.create, h2, Bool.and_false, if_false, Bool.false_eq_true]
    rfl
  · exact create_succeeds_of_no_dir fs base d
  · intro hd
    simp only [FSWorkspaceManager.init_workspace, hd, if_true]
  · intro hd
    obtain ⟨ws, fs2, hcr, hb, hwf, hread, hdir⟩ :=
      create_succeeds_of_no_dir st.fs (resolve_path st.mgr.resolve_dir bd) d hd
    simp only [FSWorkspaceManager.init_workspace, hd, if_false, hcr, Bool.false_eq_true]
    exact ⟨ws, _, rfl, alLookup_alUpdate_self _ _ _, hread, hwf⟩

/-- C5 amended witness: `create` fails on the persisted `/root/ws1`, and
`init_workspace` fails on `/r/b` whose data directory is empty. -/
theorem create_init_workspace_exists_amended_witness :
    Workspace.create fsR "/root/ws1" none =
      .error (.workspaceError (some "workspace exists: /root/ws1")) ∧
    (FSWorkspaceManager.init_workspace stEmptyWs "b" none).1 =
      .error (.workspaceError (some "workspace exists: /r/b")) :=
  ⟨(create_init_workspace_exists_amended fsR stEmptyWs "/root/ws1" "b" none).1 rfl rfl,
   (create_init_workspace_exists_amended fsR stEmptyWs "/root/ws1" "b" none).2.2.2.1 rfl⟩

/-- C7: the local manager's cache keeps at most one open workspace per
resolved base directory and every operation preserves the discipline:
`get_workspace` returns a cached instance without touching any state,
otherwise it returns exactly the loaded workspace and caches it;
`init_workspace` caches the workspace it created; `clean_workspace` installs
the reset workspace under the resolved directory; `delete_workspace` drops
the entry; and all four keep the cache keys free of duplicates. -/
theorem fs_manager_cache_discipline (st : MState) (bd : String) (d : Option String) :
    (∀ ws, alLookup st.mgr.workspace_cache (resolve_path st.mgr.resolve_dir bd) = some ws →
      FSWorkspaceManager.get_workspace st bd = (.ok ws, st)) ∧
    (∀ ws st2,
      alLookup st.mgr.workspace_cache (resolve_path st.mgr.resolve_dir bd) = none →
      FSWorkspaceManager.get_workspace st bd = (.ok ws, st2) →
      Workspace.load st.fs (resolve_path st.mgr.resolve_dir bd) = .ok ws ∧
      alLookup st2.mgr.workspace_cache (resolve_path st.mgr.resolve_dir bd) = some ws) ∧
    (∀ ws st2, FSWorkspaceManager.init_workspace st bd d = (.ok ws, st2) →
      alLookup st2.mgr.workspace_cache (resolve_path st.mgr.resolve_dir bd) = some ws) ∧
    (∃ ws, alLookup ((FSWorkspaceManager.clean_workspace st bd).2).mgr.workspace_cache
        (resolve_path st.mgr.resolve_dir bd) = some ws ∧
      ws.base_dir = resolve_path st.mgr.resolve_dir bd ∧ ws.workflow.steps = []) ∧
    ((FSWorkspaceManager.delete_workspace st bd).1 = none →
      alLookup ((FSWorkspaceManager.delete_workspace st bd).2).mgr.workspace_cache
        (resolve_path st.mgr.resolve_dir bd) = none) ∧
    ((st.mgr.workspace_cache.map Prod.fst).Nodup →
      ((((FSWorkspaceManager.get_workspace st bd).2).mgr.workspace_cache.map Prod.fst).Nodup ∧
       (((FSWorkspaceManager.init_workspace st bd d).2).mgr.workspace_cache.map Prod.fst).Nodup ∧
       (((FSWorkspaceManager.clean_workspace st bd).2).mgr.workspace_cache.map Prod.fst).Nodup ∧
       (((FSWorkspaceManager.delete_workspace st bd).2).mgr.workspace_cache.map Prod.fst).Nodup)) := by
  refine ⟨?_, ?_, ?_, ?_, ?_, ?_⟩
  · intro ws hws
    simp only [FSWorkspaceManager.get_workspace, hws]
  · intro ws st2 hnone hok
    simp only [FSWorkspaceManager.get_workspace, hnone] at hok
    cases hload : Workspace.load st.fs (resolve_path st.mgr.resolve_dir bd) with
    | error e =>
      rw [hload] at hok
      simp at hok
    | ok w =>
      rw [hload] at hok
      simp only [Prod.mk.injEq, Except.ok.injEq] at hok
      obtain ⟨hw, hst⟩ := hok
      subst hw
      subst hst
      exact ⟨rfl, alLookup_alUpdate_self _ _ _⟩
  · intro ws st2 hok
    simp only [FSWorkspaceManager.init_workspace] at hok
    split at hok
    · simp at hok
    · split at hok
      · simp at hok
      · rename_i pr heq
        simp only [Prod.mk.injEq, Except.ok.injEq] at hok
        obtain ⟨hw, hst⟩ := hok
        subst hw
        subst hst
        exact alLookup_alUpdate_self _ _ _
  · refine ⟨⟨resolve_path st.mgr.resolve_dir bd,
      new_workflow (((Workspace.load st.fs (resolve_path st.mgr.resolve_dir bd)).toOption).map
        (fun ws => ws.workflow.op_meta_info.header))⟩, ?_, rfl, rfl⟩
    simp only [FSWorkspaceManager.clean_workspace]
    exact alLookup_alUpdate_self _ _ _
  · intro hnone
    cases hdir : st.fs.isDir (get_workspace_dir (resolve_path st.mgr.resolve_dir bd)) with
    | false => simp [FSWorkspaceManager.delete_workspace, hdir] at hnone
    | true =>
      simp only [FSWorkspaceManager.delete_workspace, hdir, Bool.not_true,
        Bool.false_eq_true, if_false]
      exact alLookup_alRemove_self _ _
  · intro hnd
    refine ⟨?_, ?_, ?_, ?_⟩
    · simp only [FSWorkspaceManager.get_workspace]
      cases hl : alLookup st.mgr.workspace_cache (resolve_path st.mgr.resolve_dir bd) with
      | some ws => exact hnd
      | none =>
        cases hload : Workspace.load st.fs (resolve_path st.mgr.resolve_dir bd) with
        | error e => exact hnd
        | ok w => exact alUpdate_keys_nodup _ _ _ hnd
    · simp only [FSWorkspaceManager.init_workspace]
      split
      · exact hnd
      · split
        · exact hnd
        · exact alUpdate_keys_nodup _ _ _ hnd
    · simp only [FSWorkspaceManager.clean_workspace]
      exact alUpdate_keys_nodup _ _ _ hnd
    · simp only [FSWorkspaceManager.delete_workspace]
      split
      · exact hnd
      · exact alRemove_keys_nodup _ _ hnd

/-- C7 witness: a cached workspace is returned as-is, with no state change. -/
theorem fs_manager_cache_discipline_witness :
    FSWorkspaceManager.get_workspace stR "/root/ws1" = (.ok wsR, stR) :=
  (fs_manager_cache_discipline stR "/root/ws1" none).1 wsR rfl
